import Mathlib

set_option maxRecDepth 8192

/-!
Verification of the generated-code execution pipeline of the Kearney chatbot
backend (src/backend/app/main.py and src/backend/app/services/qa_service.py).

The Python code is shallowly embedded: the external collaborators (the Gemini
model client, the behaviour of `exec` on generated code, and `json.loads`) are
parameters of the pipeline, collected in a `Behavior` record; everything the
repository itself computes (history formatting, prompt construction, stripping,
output processing, chart validation, response assembly) is translated
definition by definition from the source.
-/

/-- A parsed JSON value, as produced by `json.loads` and consumed by the
output processing in `get_answer_from_data`.  Numbers are modelled as
integers; none of the properties under study depends on fractional values. -/
inductive Json where
  | null : Json
  | bool : Bool → Json
  | num : Int → Json
  | str : String → Json
  | arr : List Json → Json
  | obj : List (String × Json) → Json

/-- main.py lines 28-30: one chat turn `\x7bsender, text\x7d`. -/
structure ChatMessage where
  sender : String
  text : String

/-- main.py lines 32-34: the request body, a required list of turns. -/
structure ChatRequest where
  messages : List ChatMessage

/-- main.py lines 36-39: the pydantic chart model.  Note the field types:
`type` is an unconstrained string, and no relation between the lengths of
`labels` and `data` is imposed. -/
structure ChartData where
  type : String
  labels : List String
  data : List Int
deriving DecidableEq

/-- main.py lines 41-43: the response payload returned to the caller. -/
structure ChatResponse where
  answer : String
  chart : Option ChartData
deriving DecidableEq

/-- The dictionary `\x7b'answer': ..., 'chart': ...\x7d` returned by
`get_answer_from_data`.  Both fields are arbitrary Python values (parsed JSON);
a missing or null chart is `Json.null`. -/
structure ServiceResult where
  answer : Json
  chart : Json

/-- Python `dict.get(key)` on a parsed JSON object: first binding of the key,
if any. -/
def jsonLookup : List (String × Json) → String → Option Json
  | [], _ => none
  | (k, v) :: rest, key => if k = key then some v else jsonLookup rest key

/-- Python `dict.get(key, default)`. -/
def jsonGetD (kvs : List (String × Json)) (key : String) (dflt : Json) : Json :=
  (jsonLookup kvs key).getD dflt

/-- qa_service.py lines 124-128, one iteration of the history loop: a turn
whose sender is exactly "user" is rendered with the "User: " tag, every other
sender falls into the `else` branch and gets the "Assistant: " tag. -/
def renderTurn (m : ChatMessage) : String :=
  if m.sender = "user" then "User: " ++ m.text ++ "\n"
  else "Assistant: " ++ m.text ++ "\n"

/-- qa_service.py lines 123-128: the History Formatter.  `formatted_history`
starts empty and each turn appends its rendered line, in order. -/
def formatHistory : List ChatMessage → String
  | [] => ""
  | m :: ms => renderTurn m ++ formatHistory ms

/-- qa_service.py lines 76-91 and 131-135: `USER_PROMPT_TEMPLATE.format(...)`
with the three placeholders substituted. -/
def buildPrompt (schema chatHistory question : String) : String :=
  "\n**Available Data:**\n- DataFrame \x27df\x27 (pandas as \x27pd\x27)\n- \x27json\x27 module is pre-imported and available.\n\n**Schema:**\n"
    ++ schema
    ++ "\n\n**Chat History:**\n"
    ++ chatHistory
    ++ "\n\n**User Question:**\n"
    ++ question
    ++ "\n\n**Python Code (JSON output only):**\n"

/-- Python `str.strip()` (qa_service.py lines 109 and 147): remove leading and
trailing whitespace characters, nothing else. -/
def pyStrip (s : String) : String :=
  (((s.data.dropWhile Char.isWhitespace).reverse.dropWhile Char.isWhitespace).reverse).asString

mutual

/-- Python `repr` on a parsed-JSON value, as used (via `str`) when the
generated program prints a JSON value that is not an object
(qa_service.py line 191). -/
def pyRepr : Json → String
  | .null => "None"
  | .bool true => "True"
  | .bool false => "False"
  | .num n => toString n
  | .str s => "\x27" ++ s ++ "\x27"
  | .arr xs => "[" ++ pyReprList xs ++ "]"
  | .obj kvs => "\x7b" ++ pyReprPairs kvs ++ "\x7d"

/-- Comma-separated `repr`s of list elements. -/
def pyReprList : List Json → String
  | [] => ""
  | [v] => pyRepr v
  | v :: vs => pyRepr v ++ ", " ++ pyReprList vs

/-- Comma-separated `repr`s of dictionary entries. -/
def pyReprPairs : List (String × Json) → String
  | [] => ""
  | [(k, v)] => "\x27" ++ k ++ "\x27: " ++ pyRepr v
  | (k, v) :: kvs => "\x27" ++ k ++ "\x27: " ++ pyRepr v ++ ", " ++ pyReprPairs kvs

end

/-- Python `str` on a parsed-JSON value: identity on strings, `repr`
otherwise. -/
def pyStr : Json → String
  | .str s => s
  | v => pyRepr v

/-- Python truthiness of a parsed-JSON value, as tested by
`if result.get(\x27chart\x27):` in main.py line 100. -/
def isTruthy : Json → Bool
  | .null => false
  | .bool b => b
  | .num n => !(n == 0)
  | .str s => !(s == "")
  | .arr xs => !xs.isEmpty
  | .obj kvs => !kvs.isEmpty

/-- Outcome of running the generated code in the worker thread
(qa_service.py lines 99-114 and 158-177):
`stillRunning` models `execution_thread.is_alive()` still true after
`join(timeout=3.0)`, carrying whatever the program had written to the
redirected stdout by then (the code never reads it);
`raised` models the `(\x27error\x27, e, code)` queue entry;
`finished` models normal completion, carrying the full redirected stdout
before the `.strip()` of line 109. -/
inductive ExecResult where
  | stillRunning : String → ExecResult
  | raised : String → ExecResult
  | finished : String → ExecResult

/-- The external collaborators of the pipeline, fixed for one request:
the dataset schema summary `df_schema`, the model client (mapping the prompt
to either raised-exception text or `response.text`), the dynamics of `exec`
on the stripped generated code, and `json.loads` (None = JSONDecodeError). -/
structure Behavior where
  schema : String
  modelResponse : String → Except String String
  execute : String → ExecResult
  parse : String → Option Json

/-- qa_service.py lines 179-194: processing of the stripped captured output of
a successfully finished execution. -/
def processOutput (parse : String → Option Json) (output : String) : ServiceResult :=
  if output = "" then
    ⟨.str "The query ran but produced no output.", .null⟩
  else
    match parse output with
    | some (.obj kvs) =>
        ⟨jsonGetD kvs "answer" (.str "Query executed."), jsonGetD kvs "chart" .null⟩
    | some v => ⟨.str (pyStr v), .null⟩
    | none =>
        ⟨.str ("An error occurred. The AI\x27s response was not valid JSON.\nRaw output: " ++ output),
         .null⟩

/-- qa_service.py lines 116-197: `get_answer_from_data`.  The history is
formatted, the prompt built, the model called; its response text is stripped
and executed; a still-alive thread yields the fixed timeout message, a raised
exception the error message, and a finished run has its stripped output
processed.  A model-call failure lands in the outer `except` of line 196. -/
def get_answer_from_data (beh : Behavior) (userQuery : String)
    (history : List ChatMessage) : ServiceResult :=
  let formattedHistory := formatHistory history
  let prompt := buildPrompt beh.schema formattedHistory userQuery
  match beh.modelResponse prompt with
  | .error e => ⟨.str ("An error occurred with the AI model: " ++ e), .null⟩
  | .ok text =>
      let generatedCode := pyStrip text
      match beh.execute generatedCode with
      | .stillRunning _ =>
          ⟨.str "Error: Your query took too long to execute and was terminated.", .null⟩
      | .raised e => ⟨.str ("Error analyzing data: " ++ e), .null⟩
      | .finished rawOutput => processOutput beh.parse (pyStrip rawOutput)

/-- Helper for pydantic list-field validation: validate every element. -/
def optionMapList (f : Json → Option α) : List Json → Option (List α)
  | [] => some []
  | x :: xs =>
      match f x, optionMapList f xs with
      | some y, some ys => some (y :: ys)
      | _, _ => none

/-- Accumulate a decimal digit string into a natural number; fails on the
first non-digit character. -/
def decDigitsAux : List Char → Nat → Option Nat
  | [], acc => some acc
  | c :: cs, acc =>
      if c.isDigit then decDigitsAux cs (acc * 10 + (c.toNat - 48)) else none

/-- Python `float()` applied to a string, restricted to integral values:
surrounding whitespace is ignored, an optional sign is allowed, then decimal
digits.  (Fractional and exponent forms lie outside the integer-valued Json
model, like fractional JSON numbers themselves.) -/
def pyFloatIntString (s : String) : Option Int :=
  match (pyStrip s).data with
  | [] => none
  | '-' :: cs =>
      if cs = [] then none else (decDigitsAux cs 0).map fun n => -(n : Int)
  | '+' :: cs =>
      if cs = [] then none else (decDigitsAux cs 0).map fun n => (n : Int)
  | cs => (decDigitsAux cs 0).map fun n => (n : Int)

/-- Pydantic lax validation of one element of a `List[float]` field: a JSON
number is accepted, and both pydantic v1 and v2 coerce booleans and numeric
strings (e.g. "1") to float, so those are accepted too. -/
def pydanticLaxFloat : Json → Option Int
  | .num n => some n
  | .bool true => some 1
  | .bool false => some 0
  | .str s => pyFloatIntString s
  | _ => none

/-- Pydantic lax validation of a `str` field value: a string is always
accepted; pydantic v1 additionally coerces numbers and booleans via `str()`
while v2 rejects them.  The embedding takes the union of the two versions\x27
acceptance, so every necessary condition proved below about a kept chart is
true under either pydantic version. -/
def pydanticLaxStr : Json → Option String
  | .str s => some s
  | .num n => some (toString n)
  | .bool true => some "True"
  | .bool false => some "False"
  | _ => none

/-- Pydantic lax validation of a `List[str]` field value. -/
def jsonLaxStrList : Json → Option (List String)
  | .arr xs => optionMapList pydanticLaxStr xs
  | _ => none

/-- Pydantic lax validation of a `List[float]` field value (numbers modelled
as integers). -/
def jsonLaxFloatList : Json → Option (List Int)
  | .arr xs => optionMapList pydanticLaxFloat xs
  | _ => none

/-- main.py lines 36-39 and 100-106: `ChartData(**result[\x27chart\x7d\x27])`
wrapped in `try/except` — `none` models a caught exception.  Validation
requires a mapping with fields `type`, `labels` and `data` whose values pass
pydantic\x27s lax field coercion; extra keys are ignored, the value of `type`
is unconstrained beyond being string-coercible, and no length relation
between labels and data is checked. -/
def pydanticChart : Json → Option ChartData
  | .obj kvs =>
      (jsonLookup kvs "type").bind fun tv =>
      (jsonLookup kvs "labels").bind fun lv =>
      (jsonLookup kvs "data").bind fun dv =>
      (pydanticLaxStr tv).bind fun t =>
      (jsonLaxStrList lv).bind fun ls =>
      (jsonLaxFloatList dv).bind fun ds =>
      some ⟨t, ls, ds⟩
  | _ => none

/-- Pydantic coerces numeric strings inside a `List[float]` field — in v1 and
v2 alike — so a chart whose data is `["1"]` validates and is kept. -/
theorem pydanticChart_coerces_numeric_string :
    pydanticChart (.obj [("type", .str "bar"), ("labels", .arr [.str "A"]),
                         ("data", .arr [.str "1"])]) =
      some ⟨"bar", ["A"], [1]⟩ := rfl

/-- Pydantic validation of the `answer: str` field at
`ChatResponse(answer=result[\x27answer\x27], ...)` (main.py line 108).
A string is accepted; `None`, lists and mappings raise `ValidationError` in
every pydantic version.  (Numeric values are coerced by pydantic v1 and
rejected by v2; they are modelled as rejected, and no theorem below depends
on that case.) -/
def pydanticStr : Json → Option String
  | .str s => some s
  | _ => none

/-- main.py lines 99-106: `validated_chart` — `None` unless the service
result\x27s chart is truthy and passes `ChartData` validation. -/
def validatedChartOf (validate : Json → Option ChartData) (chartVal : Json) :
    Option ChartData :=
  if isTruthy chartVal then validate chartVal else none

/-- main.py lines 98-108: chart validation followed by construction of the
`ChatResponse`; a non-string answer makes the construction raise, modelled as
`Except.error`, which no handler in `handle_chat` catches. -/
def assembleResponseWith (validate : Json → Option ChartData)
    (result : ServiceResult) : Except String ChatResponse :=
  let validatedChart := validatedChartOf validate result.chart
  match pydanticStr result.answer with
  | some a => .ok ⟨a, validatedChart⟩
  | none => .error "ValidationError: answer field is not a string"

/-- The response assembly with the concrete `ChartData` validator. -/
def assembleResponse : ServiceResult → Except String ChatResponse :=
  assembleResponseWith pydanticChart

/-- main.py lines 77-108: the `/api/chat` handler.  An empty message list
short-circuits; otherwise the last message is the current query, the rest the
history, and the service result is validated and assembled.
(`get_answer_from_data` is total here, so the `try/except` of lines 91-96 has
no effect in the embedding; the final `ChatResponse` construction sits outside
any `try`.) -/
def handle_chat (beh : Behavior) (request : ChatRequest) :
    Except String ChatResponse :=
  match request.messages.getLast? with
  | none => .ok ⟨"No query provided.", none⟩
  | some lastMsg =>
      let historyMessages := request.messages.dropLast
      let currentQuery := lastMsg.text
      let result := get_answer_from_data beh currentQuery historyMessages
      assembleResponse result

/-- Names bound in the locals mapping handed to `exec`
(qa_service.py line 150). -/
def execLocalNames : List String := ["df", "pd", "json"]

/-- Member names of the CPython `builtins` module that matter for capability
reach: alongside pure helpers, it exports `__import__` (module loading),
`open` (filesystem access), `eval`/`exec`/`compile` (dynamic code) and
`input`.  qa_service.py line 108 passes the whole module as `__builtins__`,
so every one of these resolves from the executed program. -/
def builtinsModuleMembers : List String :=
  ["print", "len", "range", "sum", "min", "max", "sorted", "abs", "round",
   "str", "int", "float", "list", "dict", "set", "tuple", "zip", "enumerate",
   "__import__", "open", "eval", "exec", "compile", "input", "getattr",
   "globals", "vars"]

/-- Whether a name resolves from code run by `execute_code_in_thread`
(qa_service.py line 108: `exec(code, \x7b"__builtins__": __builtins__\x7d,
local_vars)`). -/
def sandboxResolvable (name : String) : Bool :=
  execLocalNames.contains name || builtinsModuleMembers.contains name

/-- Claim C1: the code hands `exec` the complete `builtins` module, so module
loading (`__import__`), filesystem access (`open`) and dynamic evaluation
(`eval`, `exec`, `compile`) all resolve from the executed generated program —
the structural allow-list the specification mandates does not exist. -/
theorem sandbox_full_builtins_reachable :
    sandboxResolvable "__import__" = true ∧
    sandboxResolvable "open" = true ∧
    sandboxResolvable "eval" = true ∧
    sandboxResolvable "compile" = true := by
  exact ⟨rfl, rfl, rfl, rfl⟩

/-- A behaviour whose collaborators are all inert; used to witness that the
empty-request short-circuit consults none of them. -/
def idleBehavior : Behavior :=
  ⟨"", fun _ => .error "model client must not be called",
   fun _ => .raised "sandbox must not be called",
   fun _ => none⟩

/-- Claim C6: an empty message list yields exactly
`\x7banswer: "No query provided.", chart: null\x7d`, for every behaviour of
the model client and the sandbox — the result does not depend on them, so
neither is invoked. -/
theorem empty_messages_no_invocation (beh : Behavior) :
    handle_chat beh ⟨[]⟩ = .ok ⟨"No query provided.", none⟩ := rfl

/-- Witness for C6 at a concrete (inert) behaviour. -/
theorem empty_messages_no_invocation_witness :
    handle_chat idleBehavior ⟨[]⟩ = .ok ⟨"No query provided.", none⟩ :=
  empty_messages_no_invocation idleBehavior

/-- Claim C10: every turn whose sender is not exactly "user" — including
senders that are neither "user" nor "assistant" — is rendered with the
"Assistant: " tag by the History Formatter. -/
theorem nonuser_sender_assistant_tag (m : ChatMessage) (ms : List ChatMessage)
    (h : m.sender ≠ "user") :
    formatHistory (m :: ms) = ("Assistant: " ++ m.text ++ "\n") ++ formatHistory ms := by
  simp [formatHistory, renderTurn, h]

/-- Witness for C10: a sender that is neither "user" nor "assistant". -/
theorem nonuser_sender_assistant_tag_witness :
    formatHistory [⟨"system", "hello"⟩] =
      ("Assistant: " ++ "hello" ++ "\n") ++ formatHistory [] :=
  nonuser_sender_assistant_tag ⟨"system", "hello"⟩ [] (by decide)

/-- Claim C9: a falsy chart value (null, false, 0, "", [], \x7b\x7d) fails
the `if result.get(\x27chart\x27):` test, so it is never handed to chart
validation — for any validator whatsoever the validated chart is `None` —
and the assembled payload carries a null chart with the answer intact. -/
theorem falsy_chart_never_validated (validate : Json → Option ChartData)
    (res : ServiceResult) (a : String)
    (hf : isTruthy res.chart = false) (ha : res.answer = Json.str a) :
    validatedChartOf validate res.chart = none ∧
    assembleResponseWith validate res = .ok ⟨a, none⟩ := by
  have h1 : validatedChartOf validate res.chart = none := by
    simp [validatedChartOf, hf]
  refine ⟨h1, ?_⟩
  simp [assembleResponseWith, h1, ha, pydanticStr]

/-- Witness for C9: the empty-object chart `\x7b\x7d` is dropped even by a
validator that accepts everything. -/
theorem falsy_chart_never_validated_witness :
    validatedChartOf (fun _ => some ⟨"bar", ["A"], [1]⟩) (Json.obj []) = none ∧
    assembleResponseWith (fun _ => some ⟨"bar", ["A"], [1]⟩)
      ⟨Json.str "ok", Json.obj []⟩ = .ok ⟨"ok", none⟩ :=
  falsy_chart_never_validated (fun _ => some ⟨"bar", ["A"], [1]⟩)
    ⟨Json.str "ok", Json.obj []⟩ "ok" (by decide) rfl

/-- A behaviour in which the generated program loops forever: the worker
thread is still alive after `join(timeout=3.0)`, with part of its output
already written to the redirected stdout. -/
def loopBehavior : Behavior :=
  ⟨"cols",
   fun _ => .ok "while True:\n    pass",
   fun _ => .stillRunning "partly written output",
   fun _ => none⟩

/-- Claim C4: whenever the execution thread outlives the deadline, the service
returns the fixed timeout message with a null chart, and the result is the
same constant for every partially written output — nothing the program wrote
reaches the caller. -/
theorem timeout_returns_fixed_payload (beh : Behavior) (q : String)
    (hist : List ChatMessage) (text unread : String)
    (hgen : beh.modelResponse (buildPrompt beh.schema (formatHistory hist) q) = .ok text)
    (hexec : beh.execute (pyStrip text) = .stillRunning unread) :
    get_answer_from_data beh q hist =
      ⟨.str "Error: Your query took too long to execute and was terminated.", .null⟩ := by
  simp [get_answer_from_data, hgen, hexec]

/-- Witness for C4 at a concrete looping behaviour. -/
theorem timeout_returns_fixed_payload_witness :
    get_answer_from_data loopBehavior "total spend?" [] =
      ⟨.str "Error: Your query took too long to execute and was terminated.", .null⟩ :=
  timeout_returns_fixed_payload loopBehavior "total spend?" []
    "while True:\n    pass" "partly written output" rfl rfl

/-- Claim C5: processing of a successful execution\x27s stripped output —
empty output yields the fixed no-output message; a JSON value that is not an
object yields its Python stringification with a null chart; an object yields
its "answer" field (default "Query executed." when the key is absent) and its
"chart" field as candidate chart. -/
theorem success_output_processing (parse : String → Option Json) (out : String)
    (v : Json) (kvs : List (String × Json)) :
    (processOutput parse "" = ⟨.str "The query ran but produced no output.", .null⟩) ∧
    (out ≠ "" → parse out = some v → (∀ l, v ≠ Json.obj l) →
      processOutput parse out = ⟨.str (pyStr v), .null⟩) ∧
    (out ≠ "" → parse out = some (Json.obj kvs) →
      processOutput parse out =
        ⟨jsonGetD kvs "answer" (.str "Query executed."), jsonGetD kvs "chart" .null⟩ ∧
      (jsonLookup kvs "answer" = none →
        (processOutput parse out).answer = .str "Query executed.") ∧
      (∀ a, jsonLookup kvs "answer" = some a → (processOutput parse out).answer = a)) := by
  refine ⟨by simp [processOutput], ?_, ?_⟩
  · intro hne hp hno
    cases v with
    | obj l => exact absurd rfl (hno l)
    | null => simp [processOutput, hne, hp]
    | bool b => simp [processOutput, hne, hp]
    | num n => simp [processOutput, hne, hp]
    | str s => simp [processOutput, hne, hp]
    | arr xs => simp [processOutput, hne, hp]
  · intro hne hp
    have hmain : processOutput parse out =
        ⟨jsonGetD kvs "answer" (.str "Query executed."), jsonGetD kvs "chart" .null⟩ := by
      simp [processOutput, hne, hp]
    refine ⟨hmain, ?_, ?_⟩
    · intro hl
      rw [hmain]
      simp [jsonGetD, hl]
    · intro a hl
      rw [hmain]
      simp [jsonGetD, hl]

/-- A `json.loads` behaviour for the C5 witness: one non-object output and
one object output without an "answer" key. -/
def demoParse : String → Option Json := fun s =>
  if s = "[1, 2]" then some (.arr [.num 1, .num 2])
  else if s = "OBJ" then some (.obj [("chart", Json.null)]) else none

/-- Witness for C5: a non-object value is stringified, and an object without
an "answer" key falls back to "Query executed.". -/
theorem success_output_processing_witness :
    processOutput demoParse "[1, 2]" = ⟨.str (pyStr (.arr [.num 1, .num 2])), .null⟩ ∧
    (processOutput demoParse "OBJ").answer = .str "Query executed." :=
  ⟨(success_output_processing demoParse "[1, 2]" (.arr [.num 1, .num 2]) []).2.1
      (by decide) rfl (fun l h => Json.noConfusion h),
   ((success_output_processing demoParse "OBJ" Json.null [("chart", Json.null)]).2.2
      (by decide) rfl).2.1 rfl⟩

/-- The stripped stdout of a generated program that followed the output
contract syntactically but set the "answer" field to JSON null. -/
def nullAnswerOutput : String := "\x7b\"answer\": null, \"chart\": null\x7d"

/-- A behaviour in which the model produces a program whose whole output is a
JSON object with a null "answer" field. -/
def nullAnswerBehavior : Behavior :=
  ⟨"cols",
   fun _ => .ok "print(json.dumps(\x7b\"answer\": None, \"chart\": None\x7d))",
   fun _ => .finished nullAnswerOutput,
   fun s => if s = nullAnswerOutput then
      some (.obj [("answer", Json.null), ("chart", Json.null)]) else none⟩

/-- Claim C2: with the generated program printing `\x7b"answer": null,
"chart": null\x7d`, `get_answer_from_data` hands `\x7b\x27answer\x27: None,
\x27chart\x27: None\x7d` to the handler, and `ChatResponse(answer=None, ...)`
raises a pydantic ValidationError outside every try/except — the handler does
not return a well-formed payload. -/
theorem handle_chat_raises_on_null_answer :
    handle_chat nullAnswerBehavior ⟨[⟨"user", "What is the total spend?"⟩]⟩ =
      .error "ValidationError: answer field is not a string" := rfl

/-- The stripped stdout of a program returning a chart the specification
forbids: type "line" (neither "bar" nor "pie") and one label against two data
points. -/
def invalidChartOutput : String :=
  "\x7b\"answer\": \"ok\", \"chart\": \x7b\"type\": \"line\", \"labels\": [\"A\"], \"data\": [1, 2]\x7d\x7d"

/-- A behaviour in which the generated program prints `invalidChartOutput`. -/
def invalidChartBehavior : Behavior :=
  ⟨"cols",
   fun _ => .ok "print(chart_payload)",
   fun _ => .finished invalidChartOutput,
   fun s =>
     if s = invalidChartOutput then
       some (.obj [("answer", .str "ok"),
                   ("chart", .obj [("type", .str "line"),
                                   ("labels", .arr [.str "A"]),
                                   ("data", .arr [.num 1, .num 2])])])
     else none⟩

/-- Claim C3 counterexample: a candidate chart whose type is outside
\x7b"bar","pie"\x7d and whose labels and data have different lengths passes
`ChartData` validation and is kept in the final payload, where the claim
requires it to be replaced by null. -/
theorem chart_kept_despite_invalid_spec_fields :
    ∃ cd : ChartData,
      handle_chat invalidChartBehavior ⟨[⟨"user", "Plot the spend"⟩]⟩ =
        .ok ⟨"ok", some cd⟩ ∧
      cd.type ≠ "bar" ∧ cd.type ≠ "pie" ∧ cd.labels.length ≠ cd.data.length :=
  ⟨⟨"line", ["A"], [1, 2]⟩, rfl, by decide, by decide, by decide⟩

/-- Element-wise inversion of list-field validation: a validated list is
related pointwise to its source array (which in particular forces the two to
have the same length — but relates labels and data each to its own source
array only). -/
theorem optionMapList_forall₂ {α : Type} {f : Json → Option α} :
    ∀ xs ys, optionMapList f xs = some ys →
      List.Forall₂ (fun v y => f v = some y) xs ys := by
  intro xs
  induction xs with
  | nil =>
      intro ys h
      simp only [optionMapList] at h
      cases h
      exact List.Forall₂.nil
  | cons x xs ih =>
      intro ys h
      simp only [optionMapList] at h
      cases hx : f x <;> rw [hx] at h
      · exact Option.noConfusion h
      case some y =>
        cases hrest : optionMapList f xs <;> rw [hrest] at h
        · exact Option.noConfusion h
        case some ys0 =>
          cases h
          exact List.Forall₂.cons hx (ih ys0 hrest)

/-- Inversion of `ChartData` validation: a validated chart came from a
mapping whose "type" field lax-coerces to the chart\x27s type string, whose
"labels" field is an array each element of which lax-coerces to the
corresponding label, and whose "data" field is an array each element of which
lax-coerces to the corresponding data point — and nothing more is
guaranteed. -/
theorem pydanticChart_inv {c : Json} {cd : ChartData}
    (h : pydanticChart c = some cd) :
    ∃ kvs tv ls ds,
      c = Json.obj kvs ∧
      jsonLookup kvs "type" = some tv ∧
      pydanticLaxStr tv = some cd.type ∧
      jsonLookup kvs "labels" = some (Json.arr ls) ∧
      List.Forall₂ (fun v lab => pydanticLaxStr v = some lab) ls cd.labels ∧
      jsonLookup kvs "data" = some (Json.arr ds) ∧
      List.Forall₂ (fun v x => pydanticLaxFloat v = some x) ds cd.data := by
  cases c with
  | null => exact Option.noConfusion h
  | bool b => exact Option.noConfusion h
  | num n => exact Option.noConfusion h
  | str s => exact Option.noConfusion h
  | arr xs => exact Option.noConfusion h
  | obj kvs =>
      simp only [pydanticChart] at h
      cases htv : jsonLookup kvs "type" with
      | none => rw [htv] at h; simp at h
      | some tv =>
        rw [htv] at h
        simp only [Option.some_bind] at h
        cases hlv : jsonLookup kvs "labels" with
        | none => rw [hlv] at h; simp at h
        | some lv =>
          rw [hlv] at h
          simp only [Option.some_bind] at h
          cases hdv : jsonLookup kvs "data" with
          | none => rw [hdv] at h; simp at h
          | some dv =>
            rw [hdv] at h
            simp only [Option.some_bind] at h
            cases ht : pydanticLaxStr tv with
            | none => rw [ht] at h; simp at h
            | some t =>
              rw [ht] at h
              simp only [Option.some_bind] at h
              cases lv with
              | null => exact Option.noConfusion h
              | bool b => exact Option.noConfusion h
              | num n => exact Option.noConfusion h
              | str s => exact Option.noConfusion h
              | obj l => exact Option.noConfusion h
              | arr ls =>
                  simp only [jsonLaxStrList] at h
                  cases hls : optionMapList pydanticLaxStr ls with
                  | none => rw [hls] at h; simp at h
                  | some labs =>
                    rw [hls] at h
                    simp only [Option.some_bind] at h
                    cases dv with
                    | null => exact Option.noConfusion h
                    | bool b => exact Option.noConfusion h
                    | num n => exact Option.noConfusion h
                    | str s => exact Option.noConfusion h
                    | obj l => exact Option.noConfusion h
                    | arr ds =>
                        simp only [jsonLaxFloatList] at h
                        cases hds : optionMapList pydanticLaxFloat ds with
                        | none => rw [hds] at h; simp at h
                        | some dats =>
                          rw [hds] at h
                          simp only [Option.some_bind] at h
                          cases h
                          exact ⟨kvs, tv, ls, ds, rfl, htv, ht, hlv,
                                 optionMapList_forall₂ ls labs hls, hdv,
                                 optionMapList_forall₂ ds dats hds⟩

/-- Claim C3 (amended): when the service answer is a string, the handler
always assembles a payload with that answer preserved, and any chart it keeps
came from a truthy mapping with "type", "labels" and "data" fields whose
values pass pydantic\x27s lax field coercion — the type lax-coerces to a
string, labels is an array whose elements lax-coerce element-wise to the kept
labels, and data is an array whose elements (JSON numbers, booleans, or
numeric strings) lax-coerce element-wise to the kept data points; membership
of the type in \x7b"bar","pie"\x7d and equality of the labels and data
lengths are not checked. -/
theorem chart_validation_shape_only (res : ServiceResult) (a : String)
    (ha : res.answer = Json.str a) :
    ∃ copt, assembleResponse res = .ok ⟨a, copt⟩ ∧
      ∀ cd, copt = some cd →
        isTruthy res.chart = true ∧
        ∃ kvs tv ls ds,
          res.chart = Json.obj kvs ∧
          jsonLookup kvs "type" = some tv ∧
          pydanticLaxStr tv = some cd.type ∧
          jsonLookup kvs "labels" = some (Json.arr ls) ∧
          List.Forall₂ (fun v lab => pydanticLaxStr v = some lab) ls cd.labels ∧
          jsonLookup kvs "data" = some (Json.arr ds) ∧
          List.Forall₂ (fun v x => pydanticLaxFloat v = some x) ds cd.data := by
  refine ⟨validatedChartOf pydanticChart res.chart, ?_, ?_⟩
  · simp [assembleResponse, assembleResponseWith, ha, pydanticStr]
  · intro cd hcd
    cases htr : isTruthy res.chart with
    | false => simp [validatedChartOf, htr] at hcd
    | true =>
        simp only [validatedChartOf, htr, if_true] at hcd
        exact ⟨rfl, pydanticChart_inv hcd⟩

/-- A service result whose candidate chart carries its data as numeric
strings, which pydantic coerces. -/
def coercedChartResult : ServiceResult :=
  ⟨Json.str "ok",
   Json.obj [("type", Json.str "bar"), ("labels", Json.arr [Json.str "A"]),
             ("data", Json.arr [Json.str "1"])]⟩

/-- Witness for the amended C3 at a concrete service result whose chart data
is the numeric string list ["1"]. -/
theorem chart_validation_shape_only_witness :
    ∃ copt, assembleResponse coercedChartResult = .ok ⟨"ok", copt⟩ ∧
      ∀ cd, copt = some cd →
        isTruthy coercedChartResult.chart = true ∧
        ∃ kvs tv ls ds,
          coercedChartResult.chart = Json.obj kvs ∧
          jsonLookup kvs "type" = some tv ∧
          pydanticLaxStr tv = some cd.type ∧
          jsonLookup kvs "labels" = some (Json.arr ls) ∧
          List.Forall₂ (fun v lab => pydanticLaxStr v = some lab) ls cd.labels ∧
          jsonLookup kvs "data" = some (Json.arr ds) ∧
          List.Forall₂ (fun v x => pydanticLaxFloat v = some x) ds cd.data :=
  chart_validation_shape_only coercedChartResult "ok" rfl

/-- Split a character list at newline characters.  The final chunk is the
(possibly empty) tail after the last newline, so a newline-terminated text
produces its lines followed by one empty chunk. -/
def splitLines : List Char → List (List Char)
  | [] => [[]]
  | c :: cs =>
      if c = '\n' then [] :: splitLines cs
      else
        match splitLines cs with
        | [] => [[c]]
        | l :: ls => (c :: l) :: ls

/-- The newline-terminated lines of a string: every chunk before the last. -/
def terminatedLines (s : String) : List String :=
  ((splitLines s.data).map List.asString).dropLast

/-- `splitLines` always yields at least the trailing chunk. -/
theorem splitLines_ne_nil (cs : List Char) : splitLines cs ≠ [] := by
  induction cs with
  | nil => simp [splitLines]
  | cons c cs ih =>
      unfold splitLines
      by_cases h : c = '\n'
      · simp [h]
      · rw [if_neg h]
        cases hs : splitLines cs with
        | nil => simp
        | cons l ls => simp

/-- Unfolding `splitLines` over a head that is not a newline. -/
theorem splitLines_cons_of_ne (c : Char) (cs : List Char) (hc : c ≠ '\n') :
    splitLines (c :: cs) =
      match splitLines cs with
      | [] => [[c]]
      | l :: ls => (c :: l) :: ls := by
  conv_lhs => unfold splitLines
  rw [if_neg hc]

/-- Splitting a text of the form `pre ++ "\n" ++ rest`, with no newline in
`pre`, peels off `pre` as the first line. -/
theorem splitLines_append {pre : List Char} (h : '\n' ∉ pre) (rest : List Char) :
    splitLines (pre ++ '\n' :: rest) = pre :: splitLines rest := by
  induction pre with
  | nil => simp [splitLines]
  | cons c pre ih =>
      have hc : c ≠ '\n' := fun hh => h (hh ▸ List.mem_cons_self c pre)
      have hpre : '\n' ∉ pre := fun hm => h (List.mem_cons_of_mem c hm)
      rw [List.cons_append, splitLines_cons_of_ne c _ hc, ih hpre]

/-- Appending strings concatenates their character lists. -/
theorem stringDataAppend (a b : String) : (a ++ b).data = a.data ++ b.data := by
  cases a; cases b; rfl

/-- `asString` inverts `data`. -/
theorem dataAsString (s : String) : s.data.asString = s := by
  cases s; rfl

/-- The tag the History Formatter puts in front of a turn. -/
def turnTag (m : ChatMessage) : String :=
  if m.sender = "user" then "User: " else "Assistant: "

/-- A rendered turn is its tag, its text and a terminating newline. -/
theorem renderTurn_eq (m : ChatMessage) :
    renderTurn m = (turnTag m ++ m.text) ++ "\n" := by
  unfold renderTurn turnTag
  by_cases h : m.sender = "user" <;> simp [h, String.append_assoc]

/-- Character-list shape of a formatted non-empty history. -/
theorem formatHistory_cons_data (m : ChatMessage) (ms : List ChatMessage) :
    (formatHistory (m :: ms)).data =
      (turnTag m ++ m.text).data ++ '\n' :: (formatHistory ms).data := by
  show (renderTurn m ++ formatHistory ms).data = _
  rw [renderTurn_eq, stringDataAppend, stringDataAppend, List.append_assoc]
  rfl

/-- Claim C7 (amended): for histories none of whose turn texts contains a
newline character, the History Formatter output has exactly one
newline-terminated line per turn, in the original order, each line being the
"User: " or "Assistant: " tag followed by the turn text. -/
theorem history_formatter_lines (turns : List ChatMessage)
    (h : ∀ m ∈ turns, '\n' ∉ m.text.data) :
    terminatedLines (formatHistory turns) =
      turns.map (fun m => turnTag m ++ m.text) := by
  induction turns with
  | nil => rfl
  | cons m ms ih =>
      have hm : '\n' ∉ (turnTag m ++ m.text).data := by
        rw [stringDataAppend]
        intro hmem
        rcases List.mem_append.mp hmem with h1 | h2
        · unfold turnTag at h1
          by_cases hs : m.sender = "user"
          · rw [if_pos hs] at h1; exact absurd h1 (by decide)
          · rw [if_neg hs] at h1; exact absurd h1 (by decide)
        · exact h m (List.mem_cons_self m ms) h2
      have hms : ∀ m' ∈ ms, '\n' ∉ m'.text.data :=
        fun m' hm' => h m' (List.mem_cons_of_mem m hm')
      unfold terminatedLines
      rw [formatHistory_cons_data, splitLines_append hm, List.map_cons]
      have hne : (splitLines (formatHistory ms).data).map List.asString ≠ [] :=
        fun hh => splitLines_ne_nil _ (List.map_eq_nil_iff.mp hh)
      rw [List.dropLast_cons_of_ne_nil hne, dataAsString, List.map_cons]
      exact congrArg _ (ih hms)

/-- Witness for the amended C7 on a concrete two-turn history. -/
theorem history_formatter_lines_witness :
    terminatedLines (formatHistory [⟨"user", "hi"⟩, ⟨"assistant", "hello"⟩]) =
      [⟨"user", "hi"⟩, ⟨"assistant", "hello"⟩].map
        (fun m : ChatMessage => turnTag m ++ m.text) :=
  history_formatter_lines [⟨"user", "hi"⟩, ⟨"assistant", "hello"⟩] (by decide)

/-- Claim C7 counterexample: a single turn whose text contains a newline
produces two lines, the second without any sender tag, refuting
one-line-per-turn for arbitrary histories. -/
theorem history_multiline_turn_extra_line :
    terminatedLines (formatHistory [⟨"user", "a\nb"⟩]) = ["User: a", "b"] ∧
    (terminatedLines (formatHistory [⟨"user", "a\nb"⟩])).length = 2 ∧
    [(⟨"user", "a\nb"⟩ : ChatMessage)].length = 1 :=
  ⟨rfl, rfl, rfl⟩

/-- A non-satisfied predicate cannot be the reason an element was dropped by
`dropWhile`: membership of such elements is preserved exactly. -/
theorem mem_dropWhile_of_not {p : Char → Bool} {c : Char} (hc : p c = false) :
    ∀ l : List Char, c ∈ l.dropWhile p ↔ c ∈ l := by
  intro l
  induction l with
  | nil => simp
  | cons x xs ih =>
      rw [List.dropWhile_cons]
      by_cases hx : p x = true
      · rw [if_pos hx, ih]
        constructor
        · exact fun hmem => List.mem_cons_of_mem x hmem
        · intro hmem
          rcases List.mem_cons.mp hmem with h1 | h2
          · subst h1; rw [hx] at hc; exact Bool.noConfusion hc
          · exact h2
      · rw [if_neg hx]

/-- Claim C8 (amended): the Code Generator strips only leading and trailing
whitespace from the model response; every non-whitespace character — in
particular fence/delimiter markup — survives, so what is handed to the
Execution Sandbox is the trimmed response, not the bare program source. -/
theorem strip_whitespace_only (s : String) (c : Char)
    (h : c.isWhitespace = false) :
    c ∈ (pyStrip s).data ↔ c ∈ s.data := by
  unfold pyStrip
  show c ∈ (((s.data.dropWhile Char.isWhitespace).reverse.dropWhile
      Char.isWhitespace).reverse) ↔ c ∈ s.data
  rw [List.mem_reverse, mem_dropWhile_of_not h, List.mem_reverse,
      mem_dropWhile_of_not h]

/-- A model response wrapped in markdown code-fence markup. -/
def fencedResponse : String := "\x60\x60\x60python\nprint(len(df))\n\x60\x60\x60"

/-- Witness for the amended C8: the backtick (character 96) is preserved by
the stripping step. -/
theorem strip_whitespace_only_witness :
    Char.ofNat 96 ∈ (pyStrip fencedResponse).data ↔
      Char.ofNat 96 ∈ fencedResponse.data :=
  strip_whitespace_only fencedResponse (Char.ofNat 96) (by decide)

/-- Claim C8 counterexample: a fenced model response passes through
`.strip()` unchanged — the fence markup is still present in the text handed
to the sandbox. -/
theorem strip_retains_fence_markup :
    pyStrip fencedResponse = fencedResponse ∧
    Char.ofNat 96 ∈ (pyStrip fencedResponse).data :=
  ⟨rfl, by decide⟩
